import Mathlib

/-!
Verification development for the `newssh2` web SSH/SFTP client.

The definitions below are a shallow embedding of `src/server.js`:

* Strings are Lean `String`s; JavaScript `String.prototype.includes` and the
  global-replace escaping `path.replace` of `"` by `\"` are modelled character
  by character.
* The process-wide connection table `sshConnections` (a plain object keyed by
  session identifier) is modelled as an association list with unique keys;
  `sshConnections[sid] = v` is `regStore`, `delete sshConnections[sid]` is
  `regRemove`, property lookup is `regLookup`.
* Each socket.io handler becomes a pure function from the registry, the
  request fields, and the outcomes the asynchronous environment delivers
  (structured SFTP call result, shell `exec` outcome) to the list of remote
  calls issued and the list of events emitted to the client, in order.
* `conn.exec` either fails at the callback (`ExecOutcome.execErr`) or runs to
  the stream close event with an exit code and the collected stdout/stderr
  (`ExecOutcome.ran`), exactly the two cases the source distinguishes.
-/

namespace NewSSH

/-- Model of JavaScript `a.includes(b)`: `charsMatch l p` holds when `p` is a
prefix of `l`. -/
def charsMatch : List Char → List Char → Bool
  | _, [] => true
  | [], _ :: _ => false
  | a :: as, b :: bs => a == b && charsMatch as bs

/-- Model of JavaScript `a.includes(b)`: `b` occurs as a contiguous block. -/
def charsHaveSub : List Char → List Char → Bool
  | [], sub => sub.isEmpty
  | c :: rest, sub => charsMatch (c :: rest) sub || charsHaveSub rest sub

/-- JavaScript `s.includes(t)` as used on the collected command output. -/
def jsIncludes (s t : String) : Bool := charsHaveSub s.data t.data

/-- Model of `path.replace(/"/g, '\\"')`: every double quote becomes `\"`. -/
def escChars : List Char → List Char
  | [] => []
  | c :: t => (if c = '"' then ['\\', '"'] else [c]) ++ escChars t

/-- String-level form of the quote escaping used by the shell fallbacks. -/
def escapeQuotes (s : String) : String := String.mk (escChars s.data)

/-- POSIX double-quote scanner: counts command separators (`;`) that stand
outside double quotes, treating a backslash as escaping the next character.
A command with a positive count has been split into several commands. -/
def semiScan : List Char → Bool → Nat
  | [], _ => 0
  | c :: rest, inDq =>
    if c = '\\' then
      match rest with
      | [] => 0
      | _ :: rest2 => semiScan rest2 inDq
    else if c = '"' then semiScan rest (!inDq)
    else if c = ';' then (if inDq then 0 else 1) + semiScan rest inDq
    else semiScan rest inDq

/-- JavaScript `path.split('/').pop() || 'folder'` from the zip handler. -/
def jsDirName (path : String) : String :=
  let seg : List Char := (path.data.reverse.takeWhile (fun c => !(c == '/'))).reverse
  if seg.isEmpty then "folder" else String.mk seg

/-- JavaScript `path.substring(0, path.lastIndexOf('/') + 1) || '/'` from the
zip handler. -/
def jsCurrentDir (path : String) : String :=
  let pre : List Char := (path.data.reverse.dropWhile (fun c => !(c == '/'))).reverse
  if pre.isEmpty then "/" else String.mk pre

/-- Shell fallback of `delete-file` for directories (server.js line 1156). -/
def rmDirCommand (path : String) : String :=
  "rm -rf \"" ++ escapeQuotes path ++ "\" || echo \"RM_FAILED\""

/-- Shell fallback of `delete-file` for plain files (server.js line 1193). -/
def rmFileCommand (path : String) : String :=
  "rm \"" ++ escapeQuotes path ++ "\" || echo \"RM_FAILED\""

/-- Shell fallback of `rename-file` (server.js line 1243). -/
def mvCommand (oldPath newPath : String) : String :=
  "mv \"" ++ escapeQuotes oldPath ++ "\" \"" ++ escapeQuotes newPath ++
    "\" || echo \"MV_FAILED\""

/-- Shell fallback of `create-folder` (server.js line 1292). -/
def mkdirCommand (path : String) : String :=
  "mkdir -p \"" ++ escapeQuotes path ++ "\" || echo \"MKDIR_FAILED\""

/-- Shell fallback of `read-file` (server.js line 1355). -/
def catCommand (path : String) : String :=
  "cat \"" ++ escapeQuotes path ++ "\""

/-- Shell fallback of `save-file` (server.js line 1423): write the content to
a temporary path through a here-document, then move it over the target. The
target path is quote-escaped; the content and the temporary path are embedded
verbatim. -/
def saveWriteCommand (tempPath content path : String) : String :=
  "cat > \"" ++ tempPath ++ "\" << 'SFTPEOF'\n" ++ content ++
    "\nSFTPEOF\n && mv \"" ++ tempPath ++ "\" \"" ++ escapeQuotes path ++
    "\" || echo \"WRITE_FAILED\""

/-- Archive file name `dirName-timestamp.zip` built by `zip-directory`. -/
def zipFileNameOf (path : String) (ts : Nat) : String :=
  jsDirName path ++ "-" ++ toString ts ++ ".zip"

/-- Final archive location `currentDir + zipFileName` of `zip-directory`. -/
def zipPathOf (path : String) (ts : Nat) : String :=
  jsCurrentDir path ++ zipFileNameOf path ts

/-- First shell command of `zip-directory` (server.js line 1044). The inbound
path is embedded without quote escaping. -/
def zipFirstCmd (path : String) (ts : Nat) : String :=
  "zip -r \"" ++ zipPathOf path ts ++ "\" \"" ++ path ++ "\" || echo \"ZIP_FAILED\""

/-- Retry command of `zip-directory` (server.js line 1069): zip into `/tmp`,
copy back, remove the temporary copy. Again without quote escaping. -/
def zipTempCmd (path : String) (ts : Nat) : String :=
  "zip -r \"" ++ ("/tmp/" ++ zipFileNameOf path ts) ++ "\" \"" ++ path ++
    "\" && cp \"" ++ ("/tmp/" ++ zipFileNameOf path ts) ++ "\" \"" ++
    jsCurrentDir path ++ "\" && rm \"" ++ ("/tmp/" ++ zipFileNameOf path ts) ++
    "\" || echo \"TEMP_ZIP_FAILED\""

/-- Initial `cd` line written to the freshly opened shell stream
(server.js line 899); the path is embedded without quoting. -/
def cdCommand (initialPath : String) : String := "cd " ++ initialPath ++ "\n"

/-- One registry record: `{ conn, stream }` from `connect-ssh` or
`{ conn, sftp }` from `connect-sftp`. Handles are opaque numeric ids. -/
structure ConnRecord where
  conn : Nat
  stream : Option Nat
  sftp : Option Nat
deriving DecidableEq, Repr

/-- The process-wide `sshConnections` object: an insertion-ordered map with
unique keys, modelled as an association list. -/
abbrev RegList : Type := List (String × ConnRecord)

/-- Property read `sshConnections[sid]`. -/
def regLookup (reg : RegList) (sid : String) : Option ConnRecord :=
  Option.map Prod.snd (List.find? (fun p => p.1 == sid) reg)

/-- Property write `sshConnections[sid] = r`: replace the existing entry for
the key, else append a fresh one, as a JavaScript object does. -/
def regStore : RegList → String → ConnRecord → RegList
  | [], sid, r => [(sid, r)]
  | (k, v) :: t, sid, r =>
      if k == sid then (sid, r) :: t else (k, v) :: regStore t sid r

/-- Property delete `delete sshConnections[sid]`. -/
def regRemove (reg : RegList) (sid : String) : RegList :=
  List.filter (fun p => !(p.1 == sid)) reg

/-- Truthiness guard `sshConnections[sid] && sshConnections[sid].sftp` used by
every file-operation handler. -/
def getSftpRecord (reg : RegList) (sid : String) : Option ConnRecord :=
  match regLookup reg sid with
  | none => none
  | some r => if r.sftp.isSome then some r else none

/-- Truthiness guard `sshConnections[sid] && sshConnections[sid].stream` used
by the terminal `command` handler. -/
def getStreamRecord (reg : RegList) (sid : String) : Option ConnRecord :=
  match regLookup reg sid with
  | none => none
  | some r => if r.stream.isSome then some r else none

/-- Directory entry delivered by the structured `readdir` capability. -/
structure SftpEntry where
  filename : String
  size : Nat
  isDir : Bool
  mtime : Nat
  mode : Nat
  uid : Nat
deriving DecidableEq, Repr

/-- Entry shape sent to the client by `list-directory` (server.js line 1000). -/
structure FileInfo where
  name : String
  size : Nat
  isDirectory : Bool
  modifyTimeMs : Nat
  permissions : Nat
  owner : Nat
deriving DecidableEq, Repr

/-- The field mapping applied to every `readdir` entry (server.js line 1000):
`modifyTime` is `mtime * 1000` milliseconds. -/
def mapEntry (e : SftpEntry) : FileInfo :=
  ⟨e.filename, e.size, e.isDir, e.mtime * 1000, e.mode, e.uid⟩

/-- Events emitted on the client-facing socket, one constructor per
`socket.emit` event name appearing in the source. -/
inductive Event where
  | message (text : String)
  | errorEv (text : String)
  | sftpError (text : String)
  | sftpConnected (initialPath : String)
  | directoryList (path : String) (files : List FileInfo)
  | zipStarted (path : String)
  | zipComplete (path : String)
  | uploadComplete
  | deleteComplete
  | renameComplete
  | folderCreated
  | fileContent (path content : String)
  | fileSaved (path : String)
deriving DecidableEq, Repr

/-- Remote actions taken against the transport. `execCmd` is `conn.exec`;
the `sftp...` constructors are the structured capability calls; `streamWrite`
is a write to the interactive shell stream. -/
inductive RemoteCall where
  | sftpRmdir (path : String)
  | sftpUnlink (path : String)
  | sftpRename (oldPath newPath : String)
  | sftpMkdir (path : String)
  | sftpReaddir (path : String)
  | sftpReadStream (path : String)
  | sftpWriteStream (path : String) (mode : Nat)
  | sftpStat (path : String)
  | execCmd (cmd : String)
  | streamWrite (text : String)
deriving DecidableEq, Repr

/-- Result of one `conn.exec` invocation: either the exec callback itself
reports an error, or the command runs to stream close with an exit code and
the accumulated stdout and stderr. -/
inductive ExecOutcome where
  | execErr (msg : String)
  | ran (code : Nat) (stdout stderr : String)
deriving DecidableEq, Repr

/-- Handler of the `delete-file` event (server.js lines 1138-1224). Structured
`rmdir`/`unlink` first; on failure exactly one `rm` fallback whose close
handler applies the exit-code-OR-sentinel rule with sentinel `RM_FAILED`. -/
def deleteFileHandler (reg : RegList) (sid path : String) (isDirectory : Bool)
    (sftpResult : Option String) (shell : ExecOutcome) :
    List RemoteCall × List Event :=
  match getSftpRecord reg sid with
  | none => ([], [.sftpError "No active SFTP connection"])
  | some _ =>
    let structuredCall :=
      if isDirectory then RemoteCall.sftpRmdir path else RemoteCall.sftpUnlink path
    match sftpResult with
    | none => ([structuredCall], [.deleteComplete])
    | some em =>
      let noun := if isDirectory then "directory" else "file"
      let cmd := if isDirectory then rmDirCommand path else rmFileCommand path
      match shell with
      | .execErr sm =>
          ([structuredCall, .execCmd cmd],
           [.sftpError ("Failed to delete " ++ noun ++ ": " ++ em ++
              ". Shell command also failed: " ++ sm)])
      | .ran code out errOut =>
          ([structuredCall, .execCmd cmd],
           [if code != 0 || jsIncludes out "RM_FAILED" then
              Event.sftpError ("Failed to delete " ++ noun ++
                " with rm command: " ++ errOut)
            else Event.deleteComplete])

/-- Handler of the `rename-file` event (server.js lines 1227-1273). -/
def renameFileHandler (reg : RegList) (sid oldPath newPath : String)
    (sftpResult : Option String) (shell : ExecOutcome) :
    List RemoteCall × List Event :=
  match getSftpRecord reg sid with
  | none => ([], [.sftpError "No active SFTP connection"])
  | some _ =>
    match sftpResult with
    | none => ([.sftpRename oldPath newPath], [.renameComplete])
    | some em =>
      match shell with
      | .execErr sm =>
          ([.sftpRename oldPath newPath, .execCmd (mvCommand oldPath newPath)],
           [.sftpError ("Failed to rename: " ++ em ++
              ". Shell command also failed: " ++ sm)])
      | .ran code out errOut =>
          ([.sftpRename oldPath newPath, .execCmd (mvCommand oldPath newPath)],
           [if code != 0 || jsIncludes out "MV_FAILED" then
              Event.sftpError ("Failed to rename with mv command: " ++ errOut)
            else Event.renameComplete])

/-- Handler of the `create-folder` event (server.js lines 1276-1322). -/
def createFolderHandler (reg : RegList) (sid path : String)
    (sftpResult : Option String) (shell : ExecOutcome) :
    List RemoteCall × List Event :=
  match getSftpRecord reg sid with
  | none => ([], [.sftpError "No active SFTP connection"])
  | some _ =>
    match sftpResult with
    | none => ([.sftpMkdir path], [.folderCreated])
    | some em =>
      match shell with
      | .execErr sm =>
          ([.sftpMkdir path, .execCmd (mkdirCommand path)],
           [.sftpError ("Failed to create folder: " ++ em ++
              ". Shell command also failed: " ++ sm)])
      | .ran code out errOut =>
          ([.sftpMkdir path, .execCmd (mkdirCommand path)],
           [if code != 0 || jsIncludes out "MKDIR_FAILED" then
              Event.sftpError ("Failed to create folder with mkdir command: " ++ errOut)
            else Event.folderCreated])

/-- Handler of the `read-file` event (server.js lines 1325-1387). The read
stream either delivers the whole content or errors; the `cat` fallback is
judged on the exit code alone. The enclosing try/catch around stream creation
is typed away. -/
def readFileHandler (reg : RegList) (sid path : String)
    (readResult : Except String String) (shell : ExecOutcome) :
    List RemoteCall × List Event :=
  match getSftpRecord reg sid with
  | none => ([], [.sftpError "No active SFTP connection"])
  | some _ =>
    match readResult with
    | .ok content => ([.sftpReadStream path], [.fileContent path content])
    | .error em =>
      match shell with
      | .execErr sm =>
          ([.sftpReadStream path, .execCmd (catCommand path)],
           [.sftpError ("Failed to read file: " ++ em ++
              ". Shell command also failed: " ++ sm)])
      | .ran code out errOut =>
          ([.sftpReadStream path, .execCmd (catCommand path)],
           [if code != 0 then
              Event.sftpError ("Failed to read file with cat command: " ++ errOut)
            else Event.fileContent path out])

/-- Handler of the `save-file` event (server.js lines 1390-1458). `stat`
first to preserve the mode (default `0o644` when stat fails), then the write
stream; on write error one shell fallback with sentinel `WRITE_FAILED`. -/
def saveFileHandler (reg : RegList) (sid path content : String)
    (statResult : Option Nat) (writeErr : Option String) (shell : ExecOutcome)
    (ts : Nat) : List RemoteCall × List Event :=
  match getSftpRecord reg sid with
  | none => ([], [.sftpError "No active SFTP connection"])
  | some _ =>
    let mode := match statResult with | some m => m | none => 0o644
    match writeErr with
    | none => ([.sftpStat path, .sftpWriteStream path mode], [.fileSaved path])
    | some em =>
      let cmd := saveWriteCommand ("/tmp/sftp_temp_" ++ toString ts) content path
      match shell with
      | .execErr sm =>
          ([.sftpStat path, .sftpWriteStream path mode, .execCmd cmd],
           [.sftpError ("Failed to save file: " ++ em ++
              ". Shell command also failed: " ++ sm)])
      | .ran code out errOut =>
          ([.sftpStat path, .sftpWriteStream path mode, .execCmd cmd],
           [if code != 0 || jsIncludes out "WRITE_FAILED" then
              Event.sftpError ("Failed to save file with shell command: " ++ errOut)
            else Event.fileSaved path])

/-- Handler of the `upload-file` event (server.js lines 1100-1135). On a write
stream error the handler emits the error and a retry message; the announced
shell fallback is not implemented in the source (its own comment says so), so
no `exec` is issued. -/
def uploadFileHandler (reg : RegList) (sid path : String)
    (writeErr : Option String) : List RemoteCall × List Event :=
  match getSftpRecord reg sid with
  | none => ([], [.sftpError "No active SFTP connection"])
  | some _ =>
    match writeErr with
    | none => ([.sftpWriteStream path 0o644], [.uploadComplete])
    | some em =>
        ([.sftpWriteStream path 0o644],
         [.sftpError ("Upload failed: " ++ em),
          .message "Retrying upload with alternate method..."])

/-- Handler of the `list-directory` event (server.js lines 982-1013). -/
def listDirectoryHandler (reg : RegList) (sid path : String)
    (res : Except String (List SftpEntry)) : List RemoteCall × List Event :=
  match getSftpRecord reg sid with
  | none => ([], [.sftpError "No active SFTP connection"])
  | some _ =>
    match res with
    | .error msg =>
        ([.sftpReaddir path], [.sftpError ("Failed to read directory: " ++ msg)])
    | .ok list =>
        ([.sftpReaddir path], [.directoryList path (list.map mapEntry)])

/-- Handler of the `zip-directory` event (server.js lines 1016-1097): first a
direct `zip -r` with sentinel `ZIP_FAILED`; if that attempt is classified as
failed (exit-code-OR-sentinel), one retry through `/tmp` with sentinel
`TEMP_ZIP_FAILED`; the retry failure message reuses the first command's
stderr. -/
def zipDirectoryHandler (reg : RegList) (sid path : String) (ts : Nat)
    (firstExec secondExec : ExecOutcome) : List RemoteCall × List Event :=
  match getSftpRecord reg sid with
  | none => ([], [.sftpError "No active SFTP connection"])
  | some _ =>
    let cmd1 := zipFirstCmd path ts
    match firstExec with
    | .execErr msg =>
        ([.execCmd cmd1],
         [.zipStarted path, .sftpError ("Failed to create zip: " ++ msg)])
    | .ran code out errOut =>
      if code != 0 || jsIncludes out "ZIP_FAILED" then
        let cmd2 := zipTempCmd path ts
        match secondExec with
        | .execErr msg =>
            ([.execCmd cmd1, .execCmd cmd2],
             [.zipStarted path, .sftpError ("Failed to create zip: " ++ msg)])
        | .ran code2 out2 _errOut2 =>
            if code2 != 0 || jsIncludes out2 "TEMP_ZIP_FAILED" then
              ([.execCmd cmd1, .execCmd cmd2],
               [.zipStarted path,
                .sftpError ("Failed to create zip file: " ++ errOut)])
            else
              ([.execCmd cmd1, .execCmd cmd2],
               [.zipStarted path, .zipComplete (zipPathOf path ts)])
      else
        ([.execCmd cmd1], [.zipStarted path, .zipComplete (zipPathOf path ts)])

/-- Handler of the terminal `command` event (server.js lines 920-928). -/
def commandHandler (reg : RegList) (sid text : String) :
    List RemoteCall × List Event :=
  match getStreamRecord reg sid with
  | some _ => ([.streamWrite (text ++ "\n")], [])
  | none => ([], [.errorEv "No active SSH connection"])

/-- HTTP response outcomes of `POST /file/save` (server.js lines 816-845);
the missing-field `400` branch is typed away by requiring the fields. -/
inductive HttpResult where
  | ok
  | notFound (msg : String)
  | serverError (msg : String)
deriving DecidableEq, Repr

/-- Handler of `POST /file/save` (server.js lines 816-845): the write stream
is always opened with the literal mode `0o644` and there is no shell
fallback; a write error yields an HTTP 500. -/
def httpFileSave (reg : RegList) (sid path _content : String)
    (writeErr : Option String) : List RemoteCall × HttpResult :=
  match getSftpRecord reg sid with
  | none => ([], .notFound "No active SFTP connection")
  | some _ =>
    match writeErr with
    | some em =>
        ([.sftpWriteStream path 0o644],
         .serverError ("Failed to save file: " ++ em))
    | none => ([.sftpWriteStream path 0o644], .ok)

/-- Process state relevant to connection lifecycle: the registry plus the set
of transports on which `.end()` has been called. -/
structure World where
  reg : RegList
  closed : List Nat
deriving DecidableEq

/-- Environment outcome of one `connect-ssh` request. -/
inductive ShellConnectOutcome where
  | connError (msg : String)
  | shellErr (msg : String)
  | shellReady (stream : Nat) (initialPath : String)
deriving DecidableEq, Repr

/-- Environment outcome of one `connect-sftp` request. -/
inductive SftpConnectOutcome where
  | connError (msg : String)
  | sftpErr (msg : String)
  | sftpReady (sftp : Nat) (initialPath : String)
deriving DecidableEq, Repr

/-- Handler of the `connect-ssh` event (server.js lines 852-917). On transport
error only an error event; on shell-open error an error event and `conn.end()`;
on success the record `{ conn, stream }` is stored (overwriting any previous
entry without closing it) and, for a non-default initial path, a `cd` line is
written to the stream. -/
def connectSshHandler (w : World) (sid : String) (conn : Nat)
    (o : ShellConnectOutcome) : World × List RemoteCall × List Event :=
  match o with
  | .connError msg => (w, [], [.errorEv ("Connection error: " ++ msg)])
  | .shellErr msg =>
      ({ w with closed := conn :: w.closed }, [],
       [.message "SSH connection established successfully!\n",
        .errorEv ("Shell error: " ++ msg)])
  | .shellReady stream initialPath =>
      ({ w with reg := regStore w.reg sid ⟨conn, some stream, none⟩ },
       (if initialPath != "" && initialPath != "/home" then
          [RemoteCall.streamWrite (cdCommand initialPath)]
        else []),
       [.message "SSH connection established successfully!\n"])

/-- Handler of the `connect-sftp` event (server.js lines 931-979). -/
def connectSftpHandler (w : World) (sid : String) (conn : Nat)
    (o : SftpConnectOutcome) : World × List Event :=
  match o with
  | .connError msg => (w, [.sftpError ("Connection error: " ++ msg)])
  | .sftpErr msg =>
      ({ w with closed := conn :: w.closed },
       [.message "SSH connection established. Initializing SFTP session...",
        .sftpError ("SFTP error: " ++ msg)])
  | .sftpReady sftp initialPath =>
      ({ w with reg := regStore w.reg sid ⟨conn, none, some sftp⟩ },
       [.message "SSH connection established. Initializing SFTP session...",
        .sftpConnected initialPath,
        .message "SFTP session ready."])

/-- Teardown run by the socket `disconnect` handler (server.js lines
1486-1491): end the registered transport and delete the entry; no-op when the
entry is absent. -/
def ioDisconnectHandler (w : World) (sid : String) : World :=
  match regLookup w.reg sid with
  | some r => { reg := regRemove w.reg sid, closed := r.conn :: w.closed }
  | none => w

/-- The dynamic error raised by `GET /logout` when an entry exists. -/
def logoutTypeError : String :=
  "TypeError: sshConnections[sessionId].end is not a function"

/-- Teardown run by `GET /logout` (server.js lines 185-191): when an entry
exists the source calls `sshConnections[sessionId].end()`, but the stored
records `{ conn, stream }` / `{ conn, sftp }` have no `end` method, so the
call throws a TypeError and neither the deletion nor the rest of the route
runs; modelled as `Except.error`. With no entry the guard skips the body. -/
def logoutHandler (w : World) (sid : String) : Except String World :=
  match regLookup w.reg sid with
  | some _ => .error logoutTypeError
  | none => .ok w

/-- Singleton registry with one file-capability record, the state every file
operation expects. -/
def regWithSftp (sid : String) (c f : Nat) : RegList := [(sid, ⟨c, none, some f⟩)]

/-- Singleton registry with one shell-stream record. -/
def regWithStream (sid : String) (c st : Nat) : RegList := [(sid, ⟨c, some st, none⟩)]

/-- The injection path from the specification's path-escaping test. -/
def pwnPath : String := "a\"; touch /tmp/pwned; echo \"b"

/-- Empty process state. -/
def world0 : World := ⟨[], []⟩

/-- Process state with one registered shell connection for session `"s"`. -/
def worldS : World := ⟨[("s", ⟨1, some 2, none⟩)], []⟩

/-- The session identifiers present in the registry. -/
def regKeys (reg : RegList) : List String := reg.map Prod.fst

theorem data_append (a b : String) : (a ++ b).data = a.data ++ b.data := rfl

theorem charsMatch_append (m b : List Char) : charsMatch (m ++ b) m = true := by
  induction m with
  | nil => cases b <;> simp [charsMatch]
  | cons c t ih => simp [charsMatch, ih]

theorem charsHaveSub_nil (l : List Char) : charsHaveSub l [] = true := by
  cases l <;> simp [charsHaveSub, charsMatch]

theorem charsHaveSub_sandwich (a m b : List Char) :
    charsHaveSub (a ++ (m ++ b)) m = true := by
  induction a with
  | nil =>
    cases m with
    | nil => simpa using charsHaveSub_nil b
    | cons c t =>
      simp only [List.nil_append, charsHaveSub, Bool.or_eq_true]
      exact Or.inl (by simpa [List.cons_append] using charsMatch_append (c :: t) b)
  | cons x xs ih => simp [charsHaveSub, ih]

theorem jsIncludes_sandwich (x m y : String) : jsIncludes (x ++ m ++ y) m = true := by
  have h : (x ++ m ++ y).data = x.data ++ (m.data ++ y.data) := by
    rw [data_append, data_append, List.append_assoc]
  rw [jsIncludes, h]
  exact charsHaveSub_sandwich x.data m.data y.data

theorem charsHaveSub_suffix (a m : List Char) : charsHaveSub (a ++ m) m = true := by
  simpa using charsHaveSub_sandwich a m []

theorem jsIncludes_suffix (x m : String) : jsIncludes (x ++ m) m = true := by
  rw [jsIncludes, data_append]
  exact charsHaveSub_suffix x.data m.data

theorem jsIncludes_four_second (x m y z : String) :
    jsIncludes (x ++ m ++ y ++ z) m = true := by
  rw [jsIncludes, data_append, data_append, data_append, List.append_assoc,
    List.append_assoc]
  exact charsHaveSub_sandwich x.data m.data (y.data ++ z.data)

theorem classify_or {α : Type} (code : Nat) (b : Bool) (x y : α) (hxy : x ≠ y) :
    ((if code != 0 || b then x else y) = y ↔ (code = 0 ∧ b = false))
  ∧ ((if code != 0 || b then x else y) = x ↔ (code ≠ 0 ∨ b = true)) := by
  by_cases hc : code = 0
  · subst hc
    have hyx : ¬ y = x := fun h => hxy h.symm
    cases b
    · simp [hyx]
    · simp [hxy, hyx]
  · have hb : (code != 0) = true := by simpa [bne_iff_ne] using hc
    simp [hb, hxy, hc]

theorem regLookup_single (sid : String) (r : ConnRecord) :
    regLookup [(sid, r)] sid = some r := by
  simp [regLookup, List.find?]

theorem getSftpRecord_regWithSftp (sid : String) (c f : Nat) :
    getSftpRecord (regWithSftp sid c f) sid = some ⟨c, none, some f⟩ := by
  simp [getSftpRecord, regWithSftp, regLookup_single]

theorem getStreamRecord_regWithStream (sid : String) (c st : Nat) :
    getStreamRecord (regWithStream sid c st) sid = some ⟨c, some st, none⟩ := by
  simp [getStreamRecord, regWithStream, regLookup_single]

theorem regLookup_regStore (reg : RegList) (sid : String) (r : ConnRecord) :
    regLookup (regStore reg sid r) sid = some r := by
  induction reg with
  | nil => simp [regStore, regLookup, List.find?]
  | cons hd t ih =>
    obtain ⟨k, v⟩ := hd
    by_cases hk : (k == sid) = true
    · simp [regStore, hk, regLookup, List.find?]
    · simp only [regStore, hk, Bool.false_eq_true, if_false]
      simpa [regLookup, List.find?, hk] using ih

theorem regKeys_regStore_eq (reg : RegList) (sid : String) (r : ConnRecord) :
    regKeys (regStore reg sid r)
      = if sid ∈ regKeys reg then regKeys reg else regKeys reg ++ [sid] := by
  induction reg with
  | nil => simp [regStore, regKeys]
  | cons hd t ih =>
    obtain ⟨k0, v⟩ := hd
    by_cases h0 : (k0 == sid) = true
    · have hks : k0 = sid := by simpa using h0
      subst hks
      simp [regStore, regKeys]
    · have hne : ¬ sid = k0 := fun h => h0 (by simp [h])
      simp only [regStore, h0, Bool.false_eq_true, if_false]
      simp only [regKeys] at ih
      by_cases hm : sid ∈ List.map Prod.fst t
      · simp [regKeys, ih, hm, hne, List.mem_cons]
      · simp [regKeys, ih, hm, hne, List.mem_cons]

theorem regKeys_regStore_nodup (reg : RegList) (sid : String) (r : ConnRecord)
    (h : (regKeys reg).Nodup) : (regKeys (regStore reg sid r)).Nodup := by
  rw [regKeys_regStore_eq]
  by_cases hm : sid ∈ regKeys reg
  · simpa [hm] using h
  · simp [hm, List.nodup_append, h]

theorem semiScan_plain (c : Char) (rest : List Char) (st : Bool)
    (h1 : c ≠ '\\') (h2 : c ≠ '"') (h3 : c ≠ ';') :
    semiScan (c :: rest) st = semiScan rest st := by
  rw [semiScan.eq_def]
  simp [h1, h2, h3]

theorem semiScan_quote (rest : List Char) (st : Bool) :
    semiScan ('"' :: rest) st = semiScan rest (!st) := by
  rw [semiScan.eq_def]
  simp

theorem semiScan_semi_in (rest : List Char) :
    semiScan (';' :: rest) true = semiScan rest true := by
  rw [semiScan.eq_def]
  simp

theorem semiScan_escpair (c : Char) (rest : List Char) (st : Bool) :
    semiScan ('\\' :: c :: rest) st = semiScan rest st := by
  rw [semiScan.eq_def]
  simp

theorem semiScan_plains (pre rest : List Char) (st : Bool)
    (h : ∀ c ∈ pre, c ≠ '\\' ∧ c ≠ '"' ∧ c ≠ ';') :
    semiScan (pre ++ rest) st = semiScan rest st := by
  induction pre with
  | nil => rfl
  | cons c t ih =>
    obtain ⟨h1, h2, h3⟩ := h c (List.mem_cons_self c t)
    rw [List.cons_append, semiScan_plain c _ _ h1 h2 h3]
    exact ih (fun d hd => h d (List.mem_cons_of_mem _ hd))

theorem semiScan_esc_append (l rest : List Char) (h : '\\' ∉ l) :
    semiScan (escChars l ++ rest) true = semiScan rest true := by
  induction l with
  | nil => rfl
  | cons c t ih =>
    have hc : c ≠ '\\' := fun e => h (by simp [e])
    have ht : '\\' ∉ t := fun m => h (List.mem_cons_of_mem _ m)
    by_cases hq : c = '"'
    · subst hq
      rw [show escChars ('"' :: t) = '\\' :: '"' :: escChars t from by simp [escChars]]
      rw [List.cons_append, List.cons_append, semiScan_escpair]
      exact ih ht
    · rw [show escChars (c :: t) = c :: escChars t from by simp [escChars, hq]]
      rw [List.cons_append]
      by_cases hs : c = ';'
      · subst hs
        rw [semiScan_semi_in]
        exact ih ht
      · rw [semiScan_plain c _ _ hc hq hs]
        exact ih ht

theorem semiScan_quoted_arg (l rest : List Char) (h : '\\' ∉ l) :
    semiScan ('"' :: (escChars l ++ ('"' :: rest))) false = semiScan rest false := by
  rw [semiScan_quote, Bool.not_false, semiScan_esc_append l _ h, semiScan_quote,
    Bool.not_true]

theorem rmFileCommand_data (p : String) :
    (rmFileCommand p).data
      = "rm ".data ++ ('"' :: (escChars p.data ++ ('"' :: (" || echo \"RM_FAILED\"").data))) := rfl

theorem semiScan_rmFileCommand (p : String) (h : '\\' ∉ p.data) :
    semiScan (rmFileCommand p).data false = 0 := by
  rw [rmFileCommand_data, semiScan_plains _ _ _ (by decide), semiScan_quoted_arg _ _ h]
  decide

theorem rmDirCommand_data (p : String) :
    (rmDirCommand p).data
      = "rm -rf ".data ++ ('"' :: (escChars p.data ++ ('"' :: (" || echo \"RM_FAILED\"").data))) := rfl

theorem semiScan_rmDirCommand (p : String) (h : '\\' ∉ p.data) :
    semiScan (rmDirCommand p).data false = 0 := by
  rw [rmDirCommand_data, semiScan_plains _ _ _ (by decide), semiScan_quoted_arg _ _ h]
  decide

theorem mkdirCommand_data (p : String) :
    (mkdirCommand p).data
      = "mkdir -p ".data ++ ('"' :: (escChars p.data ++ ('"' :: (" || echo \"MKDIR_FAILED\"").data))) := rfl

theorem semiScan_mkdirCommand (p : String) (h : '\\' ∉ p.data) :
    semiScan (mkdirCommand p).data false = 0 := by
  rw [mkdirCommand_data, semiScan_plains _ _ _ (by decide), semiScan_quoted_arg _ _ h]
  decide

theorem catCommand_data (p : String) :
    (catCommand p).data
      = "cat ".data ++ ('"' :: (escChars p.data ++ ('"' :: ([] : List Char)))) := rfl

theorem semiScan_catCommand (p : String) (h : '\\' ∉ p.data) :
    semiScan (catCommand p).data false = 0 := by
  rw [catCommand_data, semiScan_plains _ _ _ (by decide), semiScan_quoted_arg _ _ h]
  decide

theorem mvCommand_data (p q : String) :
    (mvCommand p q).data
      = "mv ".data ++ ('"' :: (escChars p.data ++ ('"' ::
          (" ".data ++ ('"' :: (escChars q.data ++ ('"' ::
            (" || echo \"MV_FAILED\"").data))))))) := by
  show ("mv \"" ++ escapeQuotes p ++ "\" \"" ++ escapeQuotes q ++
      "\" || echo \"MV_FAILED\"").data = _
  rw [data_append, data_append, data_append, data_append]
  simp only [List.append_assoc]
  rfl

theorem semiScan_mvCommand (p q : String) (hp : '\\' ∉ p.data) (hq : '\\' ∉ q.data) :
    semiScan (mvCommand p q).data false = 0 := by
  rw [mvCommand_data, semiScan_plains _ _ _ (by decide), semiScan_quoted_arg _ _ hp,
    semiScan_plains _ _ _ (by decide), semiScan_quoted_arg _ _ hq]
  decide

/-- C1: for every fallback shell command executed by `delete-file` (directory
and file variants), `rename-file`, `create-folder` and `zip-directory`, the
attempt is classified as failed exactly when the exit code is non-zero or the
collected stdout contains the operation's sentinel (`RM_FAILED`, `MV_FAILED`,
`MKDIR_FAILED`, `ZIP_FAILED`); with exit code 0 and no sentinel the success
notification is emitted (for zip: the single `zip -r` call plus the
`zip-complete` event; a failed classification instead launches the one
temp-directory retry). -/
theorem spec2_C1_sentinel_or_exit (sid : String) (c f : Nat)
    (path oldPath newPath em : String) (code : Nat) (out errOut : String)
    (ts : Nat) (second : ExecOutcome) :
    (((deleteFileHandler (regWithSftp sid c f) sid path true (some em) (.ran code out errOut)).2
        = [Event.deleteComplete])
      ↔ (code = 0 ∧ jsIncludes out "RM_FAILED" = false))
  ∧ (((deleteFileHandler (regWithSftp sid c f) sid path true (some em) (.ran code out errOut)).2
        = [Event.sftpError ("Failed to delete directory with rm command: " ++ errOut)])
      ↔ (code ≠ 0 ∨ jsIncludes out "RM_FAILED" = true))
  ∧ (((deleteFileHandler (regWithSftp sid c f) sid path false (some em) (.ran code out errOut)).2
        = [Event.deleteComplete])
      ↔ (code = 0 ∧ jsIncludes out "RM_FAILED" = false))
  ∧ (((deleteFileHandler (regWithSftp sid c f) sid path false (some em) (.ran code out errOut)).2
        = [Event.sftpError ("Failed to delete file with rm command: " ++ errOut)])
      ↔ (code ≠ 0 ∨ jsIncludes out "RM_FAILED" = true))
  ∧ (((renameFileHandler (regWithSftp sid c f) sid oldPath newPath (some em) (.ran code out errOut)).2
        = [Event.renameComplete])
      ↔ (code = 0 ∧ jsIncludes out "MV_FAILED" = false))
  ∧ (((renameFileHandler (regWithSftp sid c f) sid oldPath newPath (some em) (.ran code out errOut)).2
        = [Event.sftpError ("Failed to rename with mv command: " ++ errOut)])
      ↔ (code ≠ 0 ∨ jsIncludes out "MV_FAILED" = true))
  ∧ (((createFolderHandler (regWithSftp sid c f) sid path (some em) (.ran code out errOut)).2
        = [Event.folderCreated])
      ↔ (code = 0 ∧ jsIncludes out "MKDIR_FAILED" = false))
  ∧ (((createFolderHandler (regWithSftp sid c f) sid path (some em) (.ran code out errOut)).2
        = [Event.sftpError ("Failed to create folder with mkdir command: " ++ errOut)])
      ↔ (code ≠ 0 ∨ jsIncludes out "MKDIR_FAILED" = true))
  ∧ ((zipDirectoryHandler (regWithSftp sid c f) sid path ts (.ran code out errOut) second
        = ([RemoteCall.execCmd (zipFirstCmd path ts)],
           [Event.zipStarted path, Event.zipComplete (zipPathOf path ts)]))
      ↔ (code = 0 ∧ jsIncludes out "ZIP_FAILED" = false))
  ∧ (((zipDirectoryHandler (regWithSftp sid c f) sid path ts (.ran code out errOut) second).1
        = [RemoteCall.execCmd (zipFirstCmd path ts), RemoteCall.execCmd (zipTempCmd path ts)])
      ↔ (code ≠ 0 ∨ jsIncludes out "ZIP_FAILED" = true)) := by
  have hreg := getSftpRecord_regWithSftp sid c f
  refine ⟨?_, ?_, ?_, ?_, ?_, ?_, ?_, ?_, ?_, ?_⟩
  · simp only [deleteFileHandler, hreg]
    simp
  · simp only [deleteFileHandler, hreg]
    simpa using (classify_or code (jsIncludes out "RM_FAILED")
      (Event.sftpError ("Failed to delete directory with rm command: " ++ errOut))
      Event.deleteComplete (by simp)).2
  · simp only [deleteFileHandler, hreg]
    simp
  · simp only [deleteFileHandler, hreg]
    simpa using (classify_or code (jsIncludes out "RM_FAILED")
      (Event.sftpError ("Failed to delete file with rm command: " ++ errOut))
      Event.deleteComplete (by simp)).2
  · simp only [renameFileHandler, hreg]
    simp
  · simp only [renameFileHandler, hreg]
    simpa using (classify_or code (jsIncludes out "MV_FAILED")
      (Event.sftpError ("Failed to rename with mv command: " ++ errOut))
      Event.renameComplete (by simp)).2
  · simp only [createFolderHandler, hreg]
    simp
  · simp only [createFolderHandler, hreg]
    simpa using (classify_or code (jsIncludes out "MKDIR_FAILED")
      (Event.sftpError ("Failed to create folder with mkdir command: " ++ errOut))
      Event.folderCreated (by simp)).2
  · simp only [zipDirectoryHandler, hreg]
    by_cases hcond : (code != 0 || jsIncludes out "ZIP_FAILED") = true
    · rw [if_pos hcond]
      have hrhs : ¬ (code = 0 ∧ jsIncludes out "ZIP_FAILED" = false) := by
        rintro ⟨h0, hi⟩
        subst h0
        simp [hi] at hcond
      cases second with
      | execErr msg => simp [hrhs]
      | ran code2 out2 errOut2 =>
        simp [hrhs]
        split <;> simp
    · rw [if_neg hcond]
      have h0 : (code != 0) = false ∧ jsIncludes out "ZIP_FAILED" = false := by
        simpa using hcond
      have hc0 : code = 0 := by simpa [bne_iff_ne] using h0.1
      simp [hc0, h0.2]
  · simp only [zipDirectoryHandler, hreg]
    by_cases hcond : (code != 0 || jsIncludes out "ZIP_FAILED") = true
    · rw [if_pos hcond]
      have hrhs : code ≠ 0 ∨ jsIncludes out "ZIP_FAILED" = true := by
        by_cases hb : code = 0
        · subst hb
          right
          simpa using hcond
        · exact Or.inl hb
      cases second with
      | execErr msg => simp [hrhs]
      | ran code2 out2 errOut2 =>
        simp [hrhs]
        split <;> simp
    · rw [if_neg hcond]
      have h0 : (code != 0) = false ∧ jsIncludes out "ZIP_FAILED" = false := by
        simpa using hcond
      have hc0 : code = 0 := by simpa [bne_iff_ne] using h0.1
      simp [hc0, h0.2]

/-- C2 counterexample: the claim says every synthesized shell command embeds
the inbound path as a single escaped double-quoted literal so that no path can
split the command. For the specification's own injection path the
`zip-directory` command contains four command separators outside any double
quotes, and the `connect-ssh` `cd` line is split by a plain semicolon path. -/
theorem spec2_C2_counterexample :
    semiScan (zipFirstCmd pwnPath 0).data false = 4
  ∧ semiScan (cdCommand "/home; touch /tmp/pwned").data false = 1 := by
  constructor
  · decide
  · decide

/-- C2 (amended): the `delete-file`, `rename-file`, `create-folder` and
`read-file` fallback commands embed inbound paths double-quoted with embedded
double quotes escaped, and no backslash-free path can split them into several
commands; the `zip-directory` commands and the `connect-ssh` `cd` line embed
the path without escaping, and path values do split those. -/
theorem spec2_C2_path_escaping (p q : String)
    (hp : '\\' ∉ p.data) (hq : '\\' ∉ q.data) :
    semiScan (rmFileCommand p).data false = 0
  ∧ semiScan (rmDirCommand p).data false = 0
  ∧ semiScan (mvCommand p q).data false = 0
  ∧ semiScan (mkdirCommand p).data false = 0
  ∧ semiScan (catCommand p).data false = 0
  ∧ semiScan (zipFirstCmd pwnPath 0).data false ≠ 0
  ∧ semiScan (cdCommand "/home; touch /tmp/pwned").data false ≠ 0 :=
  ⟨semiScan_rmFileCommand p hp, semiScan_rmDirCommand p hp,
   semiScan_mvCommand p q hp hq, semiScan_mkdirCommand p hp,
   semiScan_catCommand p hp, by decide, by decide⟩

/-- C2 witness: the amended statement evaluated at the specification's
injection path, which contains double quotes and semicolons but no
backslash. -/
theorem spec2_C2_witness :
    semiScan (rmFileCommand pwnPath).data false = 0
  ∧ semiScan (rmDirCommand pwnPath).data false = 0
  ∧ semiScan (mvCommand pwnPath pwnPath).data false = 0
  ∧ semiScan (mkdirCommand pwnPath).data false = 0
  ∧ semiScan (catCommand pwnPath).data false = 0
  ∧ semiScan (zipFirstCmd pwnPath 0).data false ≠ 0
  ∧ semiScan (cdCommand "/home; touch /tmp/pwned").data false ≠ 0 :=
  spec2_C2_path_escaping pwnPath pwnPath (by decide) (by decide)

/-- C3: the claim says every file operation whose structured call fails issues
exactly one shell fallback before reporting a result. The `upload-file`
handler violates this: on a write-stream error it reports the failure (and
even announces a retry) while issuing no shell command at all — the fallback
is left unimplemented in the source. This theorem evaluates the handler at
the failing input: a write error produces only the structured write-stream
call, no `execCmd`, yet an error notification is emitted. -/
theorem spec2_C3_upload_no_fallback :
    uploadFileHandler (regWithSftp "s" 0 0) "s" "/tmp/f" (some "EACCES")
      = ([RemoteCall.sftpWriteStream "/tmp/f" 420],
         [Event.sftpError "Upload failed: EACCES",
          Event.message "Retrying upload with alternate method..."]) := by
  decide

/-- C4 counterexample: the claim says that whenever both the structured call
and the executed shell fallback fail, the single error notification contains
both the structured error message and the shell stderr. With structured error
`EPERM` and an executed `mv` fallback exiting 1 with stderr `mv: denied`, the
notification is only the `mv` diagnostic and does not contain `EPERM`. -/
theorem spec2_C4_counterexample :
    (renameFileHandler (regWithSftp "s" 0 0) "s" "/a" "/b" (some "EPERM")
        (.ran 1 "" "mv: denied")).2
      = [Event.sftpError "Failed to rename with mv command: mv: denied"]
  ∧ jsIncludes "Failed to rename with mv command: mv: denied" "EPERM" = false := by
  constructor
  · decide
  · decide

/-- C4 (amended): when the shell fallback cannot even be started (the exec
callback errors) the single notification combines the structured error and
the shell error; when the fallback executes and is classified as failed
(non-zero exit or sentinel in stdout) the notification is exactly the fixed
prefix followed by the shell stderr, without the structured error message. -/
theorem spec2_C4_combined_diagnostics (sid : String) (c f : Nat)
    (o n em sm out errOut a b : String) (code : Nat) :
    (renameFileHandler (regWithSftp sid c f) sid o n (some em) (.execErr sm)).2
      = [Event.sftpError ("Failed to rename: " ++ em ++
          ". Shell command also failed: " ++ sm)]
  ∧ jsIncludes ("Failed to rename: " ++ em ++
      ". Shell command also failed: " ++ sm) em = true
  ∧ jsIncludes ("Failed to rename: " ++ em ++
      ". Shell command also failed: " ++ sm) sm = true
  ∧ (renameFileHandler (regWithSftp sid c f) sid o n (some em)
        (.ran (code + 1) out errOut)).2
      = [Event.sftpError ("Failed to rename with mv command: " ++ errOut)]
  ∧ (renameFileHandler (regWithSftp sid c f) sid o n (some em)
        (.ran 0 (a ++ "MV_FAILED" ++ b) errOut)).2
      = [Event.sftpError ("Failed to rename with mv command: " ++ errOut)] := by
  have hreg := getSftpRecord_regWithSftp sid c f
  refine ⟨?_, ?_, ?_, ?_, ?_⟩
  · simp [renameFileHandler, hreg]
  · exact jsIncludes_four_second "Failed to rename: " em
      ". Shell command also failed: " sm
  · exact jsIncludes_suffix
      ("Failed to rename: " ++ em ++ ". Shell command also failed: ") sm
  · simp [renameFileHandler, hreg]
  · simp [renameFileHandler, hreg, jsIncludes_sandwich]

/-- C5 counterexample: the claim says opening a second transport for a session
identifier that already has a registered entry closes the prior transport.
After two consecutive ready `connect-ssh` requests for session `"s"` (first
transport 1 with stream 10, then transport 2 with stream 20), the registry
holds only the second record and the set of closed transports is empty: the
first transport was neither closed nor kept — it leaked. -/
theorem spec2_C5_counterexample :
    ((connectSshHandler ((connectSshHandler world0 "s" 1 (.shellReady 10 "/home")).1)
        "s" 2 (.shellReady 20 "/home")).1).reg = [("s", ⟨2, some 20, none⟩)]
  ∧ ((connectSshHandler ((connectSshHandler world0 "s" 1 (.shellReady 10 "/home")).1)
        "s" 2 (.shellReady 20 "/home")).1).closed = [] := by
  constructor
  · decide
  · decide

/-- C5 (amended): the registry always keeps at most one entry per session
identifier — its keys stay pairwise distinct and a ready connection stores
exactly one record with one transport and at most one stream or file handle —
but a second ready transport for an already-registered session identifier
overwrites the entry without closing the prior transport, which is leaked
(the set of closed transports is unchanged). -/
theorem spec2_C5_registry_overwrite (w : World) (sid : String)
    (conn st f : Nat) (p : String) (h : (regKeys w.reg).Nodup) :
    (regKeys ((connectSshHandler w sid conn (.shellReady st p)).1).reg).Nodup
  ∧ regLookup ((connectSshHandler w sid conn (.shellReady st p)).1).reg sid
      = some ⟨conn, some st, none⟩
  ∧ ((connectSshHandler w sid conn (.shellReady st p)).1).closed = w.closed
  ∧ (regKeys ((connectSftpHandler w sid conn (.sftpReady f p)).1).reg).Nodup
  ∧ regLookup ((connectSftpHandler w sid conn (.sftpReady f p)).1).reg sid
      = some ⟨conn, none, some f⟩
  ∧ ((connectSftpHandler w sid conn (.sftpReady f p)).1).closed = w.closed := by
  refine ⟨?_, ?_, rfl, ?_, ?_, rfl⟩
  · exact regKeys_regStore_nodup w.reg sid ⟨conn, some st, none⟩ h
  · exact regLookup_regStore w.reg sid ⟨conn, some st, none⟩
  · exact regKeys_regStore_nodup w.reg sid ⟨conn, none, some f⟩ h
  · exact regLookup_regStore w.reg sid ⟨conn, none, some f⟩

/-- C5 witness: the amended statement evaluated on the one-entry state, the
situation in which the overwrite-without-close actually occurs. -/
theorem spec2_C5_witness :
    (regKeys ((connectSshHandler worldS "s" 3 (.shellReady 30 "/home")).1).reg).Nodup
  ∧ regLookup ((connectSshHandler worldS "s" 3 (.shellReady 30 "/home")).1).reg "s"
      = some ⟨3, some 30, none⟩
  ∧ ((connectSshHandler worldS "s" 3 (.shellReady 30 "/home")).1).closed = worldS.closed
  ∧ (regKeys ((connectSftpHandler worldS "s" 3 (.sftpReady 40 "/home")).1).reg).Nodup
  ∧ regLookup ((connectSftpHandler worldS "s" 3 (.sftpReady 40 "/home")).1).reg "s"
      = some ⟨3, none, some 40⟩
  ∧ ((connectSftpHandler worldS "s" 3 (.sftpReady 40 "/home")).1).closed = worldS.closed :=
  spec2_C5_registry_overwrite worldS "s" 3 30 40 "/home" (by decide)

/-- C6: the claim says teardown is idempotent and error-free: it closes every
registered handle, removes the entry, and is safe when the entry is absent.
The socket `disconnect` teardown satisfies this, but the `GET /logout`
teardown calls `.end()` on the stored record — which has no such method — so
with a registered entry the first attempt throws a TypeError and the entry is
never removed. This theorem evaluates both teardown paths at the failing
input (state `worldS`, one registered entry for `"s"`). -/
theorem spec2_C6_logout_teardown_bug :
    logoutHandler worldS "s" = Except.error logoutTypeError
  ∧ ioDisconnectHandler worldS "s" = ⟨[], [1]⟩
  ∧ ioDisconnectHandler (ioDisconnectHandler worldS "s") "s"
      = ioDisconnectHandler worldS "s"
  ∧ logoutHandler world0 "s" = Except.ok world0 := by
  refine ⟨rfl, ?_, ?_, rfl⟩
  · decide
  · decide

/-- C7: when the structured call fails and the shell fallback succeeds (exit
code 0, no sentinel in stdout), the client receives exactly the same success
notification as when the structured call itself succeeds — for delete (both
directory and file), rename, create-folder and save-file the emitted event is
identical, and for read-file both paths emit a `file-content` event of the
same shape carrying the path and the content text. -/
theorem spec2_C7_fallback_success_indistinguishable (sid : String) (c f : Nat)
    (path o n content em out errOut : String) (shell : ExecOutcome)
    (statMode ts : Nat)
    (hRM : jsIncludes out "RM_FAILED" = false)
    (hMV : jsIncludes out "MV_FAILED" = false)
    (hMK : jsIncludes out "MKDIR_FAILED" = false)
    (hWR : jsIncludes out "WRITE_FAILED" = false) :
    (deleteFileHandler (regWithSftp sid c f) sid path true (some em)
        (.ran 0 out errOut)).2
      = (deleteFileHandler (regWithSftp sid c f) sid path true none shell).2
  ∧ (deleteFileHandler (regWithSftp sid c f) sid path false (some em)
        (.ran 0 out errOut)).2
      = (deleteFileHandler (regWithSftp sid c f) sid path false none shell).2
  ∧ (renameFileHandler (regWithSftp sid c f) sid o n (some em)
        (.ran 0 out errOut)).2
      = (renameFileHandler (regWithSftp sid c f) sid o n none shell).2
  ∧ (createFolderHandler (regWithSftp sid c f) sid path (some em)
        (.ran 0 out errOut)).2
      = (createFolderHandler (regWithSftp sid c f) sid path none shell).2
  ∧ (saveFileHandler (regWithSftp sid c f) sid path content (some statMode)
        (some em) (.ran 0 out errOut) ts).2
      = (saveFileHandler (regWithSftp sid c f) sid path content (some statMode)
          none shell ts).2
  ∧ (readFileHandler (regWithSftp sid c f) sid path (.error em)
        (.ran 0 out errOut)).2
      = [Event.fileContent path out]
  ∧ (readFileHandler (regWithSftp sid c f) sid path (.ok content) shell).2
      = [Event.fileContent path content] := by
  have hreg := getSftpRecord_regWithSftp sid c f
  refine ⟨?_, ?_, ?_, ?_, ?_, ?_, ?_⟩
  · simp [deleteFileHandler, hreg, hRM]
  · simp [deleteFileHandler, hreg, hRM]
  · simp [renameFileHandler, hreg, hMV]
  · simp [createFolderHandler, hreg, hMK]
  · simp [saveFileHandler, hreg, hWR]
  · simp [readFileHandler, hreg]
  · simp [readFileHandler, hreg]

/-- C7 witness: the statement evaluated with empty fallback stdout, which
contains no sentinel. -/
theorem spec2_C7_witness :
    (deleteFileHandler (regWithSftp "s" 0 0) "s" "/p" true (some "e")
        (.ran 0 "" "")).2
      = (deleteFileHandler (regWithSftp "s" 0 0) "s" "/p" true none
          (.ran 0 "" "")).2
  ∧ (deleteFileHandler (regWithSftp "s" 0 0) "s" "/p" false (some "e")
        (.ran 0 "" "")).2
      = (deleteFileHandler (regWithSftp "s" 0 0) "s" "/p" false none
          (.ran 0 "" "")).2
  ∧ (renameFileHandler (regWithSftp "s" 0 0) "s" "/a" "/b" (some "e")
        (.ran 0 "" "")).2
      = (renameFileHandler (regWithSftp "s" 0 0) "s" "/a" "/b" none
          (.ran 0 "" "")).2
  ∧ (createFolderHandler (regWithSftp "s" 0 0) "s" "/p" (some "e")
        (.ran 0 "" "")).2
      = (createFolderHandler (regWithSftp "s" 0 0) "s" "/p" none
          (.ran 0 "" "")).2
  ∧ (saveFileHandler (regWithSftp "s" 0 0) "s" "/p" "body" (some 384)
        (some "e") (.ran 0 "" "") 7).2
      = (saveFileHandler (regWithSftp "s" 0 0) "s" "/p" "body" (some 384)
          none (.ran 0 "" "") 7).2
  ∧ (readFileHandler (regWithSftp "s" 0 0) "s" "/p" (.error "e")
        (.ran 0 "" "")).2
      = [Event.fileContent "/p" ""]
  ∧ (readFileHandler (regWithSftp "s" 0 0) "s" "/p" (.ok "body")
        (.ran 0 "" "")).2
      = [Event.fileContent "/p" "body"] :=
  spec2_C7_fallback_success_indistinguishable "s" 0 0 "/p" "/a" "/b" "body"
    "e" "" "" (.ran 0 "" "") 384 7 (by decide) (by decide) (by decide) (by decide)

/-- C8: when the transport connection or the interactive shell open fails
during a `connect-ssh` request, an error notification is emitted and the
registry is left unchanged — no entry is created for the session, so a
session whose connection never reached Ready is never registered. (On a
shell-open failure the transport is also ended.) -/
theorem spec2_C8_connect_failure_no_registration (w : World) (sid : String)
    (conn : Nat) (msg : String) :
    ((connectSshHandler w sid conn (.connError msg)).1).reg = w.reg
  ∧ (connectSshHandler w sid conn (.connError msg)).2.2
      = [Event.errorEv ("Connection error: " ++ msg)]
  ∧ ((connectSshHandler w sid conn (.shellErr msg)).1).reg = w.reg
  ∧ (connectSshHandler w sid conn (.shellErr msg)).2.2
      = [Event.message "SSH connection established successfully!\n",
         Event.errorEv ("Shell error: " ++ msg)]
  ∧ ((connectSshHandler w sid conn (.shellErr msg)).1).closed = conn :: w.closed :=
  ⟨rfl, rfl, rfl, rfl, rfl⟩

/-- C9: every file-operation request for a session identifier with no
registered file capability yields only the distinct `No active SFTP
connection` error and performs no remote call, and a terminal command for a
session with no registered shell stream yields only `No active SSH
connection` without writing to any stream. -/
theorem spec2_C9_no_active_connection (reg reg2 : RegList) (sid sid2 : String)
    (path o n content text : String) (isDir : Bool) (ts statMode : Nat)
    (sftpRes : Option String) (shell shell2 : ExecOutcome)
    (readRes : Except String String) (listRes : Except String (List SftpEntry))
    (writeErr : Option String)
    (hF : getSftpRecord reg sid = none)
    (hS : getStreamRecord reg2 sid2 = none) :
    listDirectoryHandler reg sid path listRes
      = ([], [Event.sftpError "No active SFTP connection"])
  ∧ zipDirectoryHandler reg sid path ts shell shell2
      = ([], [Event.sftpError "No active SFTP connection"])
  ∧ uploadFileHandler reg sid path writeErr
      = ([], [Event.sftpError "No active SFTP connection"])
  ∧ deleteFileHandler reg sid path isDir sftpRes shell
      = ([], [Event.sftpError "No active SFTP connection"])
  ∧ renameFileHandler reg sid o n sftpRes shell
      = ([], [Event.sftpError "No active SFTP connection"])
  ∧ createFolderHandler reg sid path sftpRes shell
      = ([], [Event.sftpError "No active SFTP connection"])
  ∧ readFileHandler reg sid path readRes shell
      = ([], [Event.sftpError "No active SFTP connection"])
  ∧ saveFileHandler reg sid path content (some statMode) writeErr shell ts
      = ([], [Event.sftpError "No active SFTP connection"])
  ∧ commandHandler reg2 sid2 text
      = ([], [Event.errorEv "No active SSH connection"]) := by
  refine ⟨?_, ?_, ?_, ?_, ?_, ?_, ?_, ?_, ?_⟩
  · simp [listDirectoryHandler, hF]
  · simp [zipDirectoryHandler, hF]
  · simp [uploadFileHandler, hF]
  · simp [deleteFileHandler, hF]
  · simp [renameFileHandler, hF]
  · simp [createFolderHandler, hF]
  · simp [readFileHandler, hF]
  · simp [saveFileHandler, hF]
  · simp [commandHandler, hS]

/-- C9 witness: the statement evaluated on the empty registry, where no
capability of either kind is registered. -/
theorem spec2_C9_witness :
    listDirectoryHandler [] "s" "/p" (.ok [])
      = ([], [Event.sftpError "No active SFTP connection"])
  ∧ zipDirectoryHandler [] "s" "/p" 0 (.ran 0 "" "") (.ran 0 "" "")
      = ([], [Event.sftpError "No active SFTP connection"])
  ∧ uploadFileHandler [] "s" "/p" none
      = ([], [Event.sftpError "No active SFTP connection"])
  ∧ deleteFileHandler [] "s" "/p" true none (.ran 0 "" "")
      = ([], [Event.sftpError "No active SFTP connection"])
  ∧ renameFileHandler [] "s" "/a" "/b" none (.ran 0 "" "")
      = ([], [Event.sftpError "No active SFTP connection"])
  ∧ createFolderHandler [] "s" "/p" none (.ran 0 "" "")
      = ([], [Event.sftpError "No active SFTP connection"])
  ∧ readFileHandler [] "s" "/p" (.ok "x") (.ran 0 "" "")
      = ([], [Event.sftpError "No active SFTP connection"])
  ∧ saveFileHandler [] "s" "/p" "x" (some 420) none (.ran 0 "" "") 0
      = ([], [Event.sftpError "No active SFTP connection"])
  ∧ commandHandler [] "s" "ls"
      = ([], [Event.errorEv "No active SSH connection"]) :=
  spec2_C9_no_active_connection [] [] "s" "s" "/p" "/a" "/b" "x" "ls" true 0 420
    none (.ran 0 "" "") (.ran 0 "" "") (.ok "x") (.ok []) none rfl rfl

/-- C10: the HTTP `POST /file/save` endpoint always opens its write stream
with the fixed mode `0o644` (420) whatever the remote file's permission bits
are — the handler takes no stat input at all — and on a write error it
answers HTTP 500 without issuing any shell command; the real-time `save-file`
handler instead stats the file, opens the stream with the preserved mode, and
on a write error issues a shell fallback. -/
theorem spec2_C10_http_save_fixed_mode (sid : String) (c f : Nat)
    (path content msg em : String) (m ts : Nat) (shell : ExecOutcome) :
    httpFileSave (regWithSftp sid c f) sid path content (some msg)
      = ([RemoteCall.sftpWriteStream path 0o644],
         HttpResult.serverError ("Failed to save file: " ++ msg))
  ∧ httpFileSave (regWithSftp sid c f) sid path content none
      = ([RemoteCall.sftpWriteStream path 0o644], HttpResult.ok)
  ∧ (saveFileHandler (regWithSftp sid c f) sid path content (some m) none
        shell ts).1
      = [RemoteCall.sftpStat path, RemoteCall.sftpWriteStream path m]
  ∧ (saveFileHandler (regWithSftp sid c f) sid path content (some m) (some em)
        shell ts).1
      = [RemoteCall.sftpStat path, RemoteCall.sftpWriteStream path m,
         RemoteCall.execCmd
           (saveWriteCommand ("/tmp/sftp_temp_" ++ toString ts) content path)] := by
  have hreg := getSftpRecord_regWithSftp sid c f
  refine ⟨?_, ?_, ?_, ?_⟩
  · simp [httpFileSave, hreg]
  · simp [httpFileSave, hreg]
  · simp [saveFileHandler, hreg]
  · cases shell <;> simp [saveFileHandler, hreg]

end NewSSH
